import Mathlib

/-!
Shallow embedding of the Electric Ireland integration
(custom_components/electric_ireland_insights/api.py and
custom_components/electric_ireland_smart_tariff/sensor_base.py).

Numeric JSON values are modelled as rationals; timestamps as integers
(seconds since the Unix epoch for the API layer, microseconds since the
Unix epoch for the datetime objects of the sensor layer, so that the
minute/second/microsecond fields of Python datetimes are representable).
-/

namespace ElectricIreland

/-! ## api.py : MeterInsightScraper.get_data -/

/-- Tariff buckets as seen in the API response on a Smart TOU plan
(`usage_tariff_keys` in api.py). -/
inductive Tariff where
  | flatRate
  | offPeak
  | midPeak
  | onPeak
deriving DecidableEq, Repr

/-- One tariff bucket of a raw record: optional consumption and cost. -/
structure UsageEntry where
  consumption : Option ℚ
  cost : Option ℚ
deriving DecidableEq, Repr

/-- A raw record of the hourly-usage JSON payload.  `endDate` is `none` when
the field is absent, `some none` when present but unparseable as an ISO
date, and `some (some t)` when it parses to epoch second `t`. -/
structure RawRecord where
  endDate : Option (Option Int)
  flatRate : Option UsageEntry
  offPeak : Option UsageEntry
  midPeak : Option UsageEntry
  onPeak : Option UsageEntry
deriving DecidableEq, Repr

/-- A produced datapoint (`consumption`, `cost`, `intervalEnd`, `tariff`). -/
structure Datapoint where
  consumption : Option ℚ
  cost : Option ℚ
  intervalEnd : Int
  tariff : Tariff
deriving DecidableEq, Repr

/-- `end_dt.hour` for a UTC datetime at epoch second `t`. -/
def hourOfEpoch (t : Int) : Int := (t.ediv 3600).emod 24

/-- The schedule-predicted active tariff for an hour of day
(api.py lines 301-307). -/
def expectedTariff (hour : Int) : Tariff :=
  if 23 ≤ hour ∨ hour < 8 then .offPeak
  else if 17 ≤ hour ∧ hour < 19 then .onPeak
  else .midPeak

/-- `dp.get(target_tariff)`: look a tariff bucket up in a raw record. -/
def bucketGet (dp : RawRecord) : Tariff → Option UsageEntry
  | .flatRate => dp.flatRate
  | .offPeak => dp.offPeak
  | .midPeak => dp.midPeak
  | .onPeak => dp.onPeak

/-- Python `v not in (None, 0)` for an optional numeric value. -/
def presentNonZero : Option ℚ → Bool
  | none => false
  | some v => if v = 0 then false else true

/-- `target_tariff`: the requested tariff in filtered mode, otherwise the
schedule-predicted one (api.py lines 313-318). -/
def targetTariffFor (tariffType : Option Tariff) (hour : Int) : Tariff :=
  tariffType.getD (expectedTariff hour)

/-- The per-record body of the loop in `get_data` (api.py lines 282-334):
skip a record with a missing or unparseable `endDate`; otherwise look up
the single target bucket and emit a datapoint only if it holds actual
data. -/
def processRecord (tariffType : Option Tariff) (dp : RawRecord) : Option Datapoint :=
  match dp.endDate with
  | none => none
  | some none => none
  | some (some t) =>
      let target := targetTariffFor tariffType (hourOfEpoch t)
      match bucketGet dp target with
      | none => none
      | some e =>
          if presentNonZero e.consumption || presentNonZero e.cost then
            some ⟨e.consumption, e.cost, t, target⟩
          else none

/-- The bucket `get_data` consults for a record: the target-tariff bucket
when the record has a parseable `endDate`, nothing otherwise. -/
def chosenBucket (tariffType : Option Tariff) (dp : RawRecord) : Option UsageEntry :=
  match dp.endDate with
  | some (some t) => bucketGet dp (targetTariffFor tariffType (hourOfEpoch t))
  | _ => none

/-- The JSON payload of the hourly-usage endpoint. -/
structure ApiPayload where
  isSuccess : Option Bool
  message : Option String
  data : Option (List RawRecord)

/-- Outcome of the HTTP GET in `get_data`: a network/HTTP error
(`RequestException`), or a response with a content type and a JSON parse
result (`none` = parse failure). -/
inductive HttpResponse where
  | netError
  | ok (contentType : String) (body : Option ApiPayload)

/-- Python `'application/json' in content_type`. -/
def containsJsonContentType (ct : String) : Bool :=
  decide ("application/json".toList <:+: ct.toList)

/-- `MeterInsightScraper.get_data` (api.py lines 249-336) from the HTTP
outcome on: every failure path returns the empty list. -/
def get_data (resp : HttpResponse) (tariffType : Option Tariff) : List Datapoint :=
  match resp with
  | .netError => []
  | .ok ct body =>
      if containsJsonContentType ct then
        match body with
        | none => []
        | some payload =>
            if payload.isSuccess.getD false then
              (payload.data.getD []).filterMap (processRecord tariffType)
            else []
      else []

/-! ## api.py : ElectricIrelandScraper.__login_and_get_meter_ids -/

/-- One `div.my-accounts__item` of the dashboard page:
the text of its `p.account-number` child (absent when the child is
missing) and the number of its `h2.account-electricity-icon` children. -/
structure AccountDiv where
  accountNumber : Option String
  elecIconCount : Nat
deriving DecidableEq, Repr

/-- A character Python `str.strip()` removes by default (ASCII
whitespace). -/
def isPyWhitespace (c : Char) : Bool :=
  c = ' ' || c = '\t' || c = '\n' || c = '\r' || c = '\x0b' || c = '\x0c'

/-- Python `s.strip()`: drop leading and trailing whitespace. -/
def pyStrip (s : String) : String :=
  String.mk (((s.toList.dropWhile isPyWhitespace).reverse.dropWhile
    isPyWhitespace).reverse)

/-- The loop-body test of the account loop (api.py lines 160-178): the
account-number text, stripped, equals the configured target and there is
exactly one electricity-icon element. -/
def accountMatches (target : String) (d : AccountDiv) : Bool :=
  match d.accountNumber with
  | none => false
  | some s => pyStrip s == target && d.elecIconCount == 1

/-- The account loop: the first dashboard entry passing `accountMatches`. -/
def findTargetAccount (target : String) (divs : List AccountDiv) : Option AccountDiv :=
  divs.find? (accountMatches target)

/-- Outcome of login and account resolution. -/
inductive LoginOutcome where
  | invalidCredentials
  | accountNotFound
  | resolved (acc : AccountDiv)
deriving DecidableEq, Repr

/-- The login-page markers checked on the login response body
(api.py line 137): `"LoginFormData.UserName" in res2.text or "Log in" in
res2.text`. -/
def loginPageMarkers (body : String) : Bool :=
  decide ("LoginFormData.UserName".toList <:+: body.toList) ||
    decide ("Log in".toList <:+: body.toList)

/-- Account resolution on the parsed dashboard entries
(api.py lines 159-182). -/
def accountResolution (target : String) (divs : List AccountDiv) : LoginOutcome :=
  match findTargetAccount target divs with
  | none => .accountNotFound
  | some d => .resolved d

/-- The login response: its body text, and the `div.my-accounts__item`
entries its HTML parses to. -/
structure LoginResponse where
  text : String
  accounts : List AccountDiv

/-- Steps 2-3 of `__login_and_get_meter_ids` after the login POST
succeeded (api.py lines 136-182): fail on login-page markers, otherwise
resolve the target account. -/
def resolveLogin (target : String) (resp : LoginResponse) : LoginOutcome :=
  if loginPageMarkers resp.text then .invalidCredentials
  else accountResolution target resp.accounts

/-! ## sensor_base.py : update throttle -/

/-- `MIN_UPDATE_INTERVAL_HOURS` (const.py). -/
def MIN_UPDATE_INTERVAL_HOURS : ℚ := 6

/-- The throttle-relevant sensor state: `_last_update_time` (epoch
seconds) and `_initial_fetch_done`. -/
structure SensorUpdateState where
  lastUpdateTime : Option ℚ
  initialFetchDone : Bool

/-- The early-return test at the top of `async_update_historical`
(sensor_base.py lines 77-84): skip when a last update time is recorded,
the initial fetch is done, and fewer than `MIN_UPDATE_INTERVAL_HOURS`
hours elapsed since.  When it returns `true` the method returns before
any credential refresh or fetch is performed. -/
def shouldSkipUpdate (st : SensorUpdateState) (now : ℚ) : Bool :=
  match st.lastUpdateTime with
  | none => false
  | some t =>
      st.initialFetchDone && decide ((now - t) / 3600 < MIN_UPDATE_INTERVAL_HOURS)

/-! ## sensor_base.py : exposure filter -/

/-- A fetched historical sample before validity filtering: the selected
metric value (possibly null) and its datetime (microseconds since
epoch). -/
structure FetchedState where
  state : Option ℚ
  dt : Int
deriving DecidableEq, Repr

/-- Python truthiness of an optional numeric state (`if d.state`). -/
def pyTruthy : Option ℚ → Bool
  | none => false
  | some v => if v = 0 then false else true

/-- `self._attr_historical_states = [d for d in hist_states if d.state]`
(sensor_base.py line 205). -/
def exposedHistoricalStates (hist_states : List FetchedState) : List FetchedState :=
  hist_states.filter (fun d => pyTruthy d.state)

/-! ## sensor_base.py : async_calculate_statistic_data -/

/-- A finalized historical sample handed to the aggregator: numeric
state and datetime in microseconds since epoch. -/
structure HistoricalState where
  state : ℚ
  dt : Int
deriving DecidableEq, Repr

/-- Microseconds per hour. -/
def usPerHour : Int := 3600000000

/-- The `minute` field of a UTC datetime at `t` microseconds since
epoch. -/
def dtMinute (t : Int) : Int := (t.ediv 60000000).emod 60

/-- The `second` field of a UTC datetime at `t` microseconds since
epoch. -/
def dtSecond (t : Int) : Int := (t.ediv 1000000).emod 60

/-- `dt.replace(minute=0, second=0, microsecond=0)`. -/
def truncToHour (t : Int) : Int := (t.ediv usPerHour) * usPerHour

/-- `hour_block_for_hist_state` (sensor_base.py lines 256-263):
an XX:00:00 state belongs to the previous hour block. -/
def hour_block_for_hist_state (hs : HistoricalState) : Int :=
  if dtMinute hs.dt = 0 ∧ dtSecond hs.dt = 0 then truncToHour (hs.dt - usPerHour)
  else truncToHour hs.dt

/-- Helper for `groupByKey`: extend the current run (first element `cur`,
later elements collected in `run`, most recent first) while keys match,
then start a fresh run. -/
def goGroup {α β : Type} [DecidableEq β] (k : α → β) (cur : α) (run : List α) :
    List α → List (β × List α)
  | [] => [(k cur, cur :: run.reverse)]
  | y :: ys =>
      if k y = k cur then goGroup k cur (y :: run) ys
      else (k cur, cur :: run.reverse) :: goGroup k y [] ys

/-- `itertools.groupby`: split a list into maximal runs of consecutive
elements sharing a key, each tagged with that key. -/
def groupByKey {α β : Type} [DecidableEq β] (k : α → β) : List α → List (β × List α)
  | [] => []
  | x :: xs => goGroup k x [] xs

/-- One emitted statistic record (`StatisticData`): window start, window
sum (`state`), window mean, and running sum. -/
structure StatisticData where
  start : Int
  state : ℚ
  mean : ℚ
  sum : ℚ
deriving DecidableEq, Repr

/-- Sum of the states of a window (`sum([x.state for x in collection])`). -/
def sumStates (c : List HistoricalState) : ℚ :=
  (c.map HistoricalState.state).sum

/-- `statistics.mean([x.state for x in collection])`. -/
def meanStates (c : List HistoricalState) : ℚ :=
  sumStates c / (c.length : ℚ)

/-- The emission loop of `async_calculate_statistic_data`
(sensor_base.py lines 265-279): fold the accumulated running sum over
the hour groups, returning the emitted records and the final
accumulator. -/
def emitStats (acc : ℚ) : List (Int × List HistoricalState) → List StatisticData × ℚ
  | [] => ([], acc)
  | g :: rest =>
      let ps := sumStates g.2
      let next := emitStats (acc + ps) rest
      (⟨g.1, ps, meanStates g.2, acc + ps⟩ :: next.1, next.2)

/-- `accumulated = latest["sum"] if latest else 0`: the prior running sum
carried in from the `latest` argument. -/
def latestSum : Option ℚ → ℚ
  | none => 0
  | some s => s

/-- `async_calculate_statistic_data` (sensor_base.py lines 246-280). -/
def async_calculate_statistic_data (latest : Option ℚ) (l : List HistoricalState) :
    List StatisticData :=
  (emitStats (latestSum latest) (groupByKey hour_block_for_hist_state l)).1

/-- The value of `accumulated` when `async_calculate_statistic_data`
returns: the final running sum of the invocation. -/
def finalRunningSum (latest : Option ℚ) (l : List HistoricalState) : ℚ :=
  (emitStats (latestSum latest) (groupByKey hour_block_for_hist_state l)).2

/-! ## Supporting lemmas -/

theorem goGroup_join {α β : Type} [DecidableEq β] (k : α → β) (l : List α) :
    ∀ (cur : α) (run : List α),
      ((goGroup k cur run l).map Prod.snd).flatten = cur :: (run.reverse ++ l) := by
  induction l with
  | nil => intro cur run; simp [goGroup]
  | cons y ys ih =>
      intro cur run
      by_cases h : k y = k cur
      · simp only [goGroup, if_pos h]
        rw [ih cur (y :: run)]
        simp
      · simp only [goGroup, if_neg h, List.map_cons, List.flatten_cons]
        rw [ih y []]
        simp

theorem groupByKey_join {α β : Type} [DecidableEq β] (k : α → β) (l : List α) :
    ((groupByKey k l).map Prod.snd).flatten = l := by
  cases l with
  | nil => rfl
  | cons x xs => simpa using goGroup_join k xs x []

theorem sumStates_append (a b : List HistoricalState) :
    sumStates (a ++ b) = sumStates a + sumStates b := by
  simp [sumStates]

theorem sumStates_join (L : List (List HistoricalState)) :
    sumStates L.flatten = (L.map sumStates).sum := by
  induction L with
  | nil => simp [sumStates]
  | cons c L ih => simp [List.flatten, sumStates_append, ih]

theorem emitStats_snd (gs : List (Int × List HistoricalState)) :
    ∀ acc : ℚ, (emitStats acc gs).2 = acc + (gs.map (fun g => sumStates g.2)).sum := by
  induction gs with
  | nil => intro acc; simp [emitStats]
  | cons g rest ih =>
      intro acc
      simp only [emitStats, List.map_cons, List.sum_cons]
      rw [ih]
      ring

theorem emitStats_map_state (gs : List (Int × List HistoricalState)) :
    ∀ acc : ℚ,
      (emitStats acc gs).1.map StatisticData.state = gs.map (fun g => sumStates g.2) := by
  induction gs with
  | nil => intro acc; simp [emitStats]
  | cons g rest ih => intro acc; simp [emitStats, ih]

theorem emitStats_get_sum (gs : List (Int × List HistoricalState)) :
    ∀ (acc : ℚ) (i : ℕ) (h : i < (emitStats acc gs).1.length),
      ((emitStats acc gs).1.get ⟨i, h⟩).sum
        = acc + (((emitStats acc gs).1.map StatisticData.state).take (i + 1)).sum := by
  induction gs with
  | nil => intro acc i h; simp [emitStats] at h
  | cons g rest ih =>
      intro acc i h
      cases i with
      | zero => simp [emitStats]
      | succ n =>
          have h2 : n < (emitStats (acc + sumStates g.2) rest).1.length := by
            simpa [emitStats] using h
          have hg : ((emitStats acc (g :: rest)).1.get ⟨n + 1, h⟩).sum
              = ((emitStats (acc + sumStates g.2) rest).1.get ⟨n, h2⟩).sum := by
            simp [emitStats]
          rw [hg, ih (acc + sumStates g.2) n h2]
          simp only [emitStats, List.map_cons, List.take_succ_cons, List.sum_cons]
          ring

theorem finalRunningSum_eq (latest : Option ℚ) (l : List HistoricalState) :
    finalRunningSum latest l = latestSum latest + sumStates l := by
  unfold finalRunningSum
  rw [emitStats_snd]
  congr 1
  have h1 : (groupByKey hour_block_for_hist_state l).map (fun g => sumStates g.2)
      = ((groupByKey hour_block_for_hist_state l).map Prod.snd).map sumStates := by
    simp [List.map_map]
  rw [h1, ← sumStates_join, groupByKey_join]

/-! ## Claim theorems -/

/-- C1: for every time-ordered list of historical states split into a
prefix and a suffix and every prior running sum `p`, running the
aggregator over the prefix with prior `p` and then over the suffix with
the prefix run's final running sum gives the same final running sum as a
single run over the whole list; and in a single run every emitted
record's running sum equals the prior sum plus the window sums (`state`
fields) of all records emitted up to and including it. -/
theorem aggregator_split_invariant (pre suf : List HistoricalState) (p : ℚ)
    (hord : (pre ++ suf).Pairwise (fun a b => a.dt ≤ b.dt)) :
    finalRunningSum (some (finalRunningSum (some p) pre)) suf
      = finalRunningSum (some p) (pre ++ suf)
    ∧ ∀ (i : ℕ) (h : i < (async_calculate_statistic_data (some p) (pre ++ suf)).length),
        ((async_calculate_statistic_data (some p) (pre ++ suf)).get ⟨i, h⟩).sum
          = p + (((async_calculate_statistic_data (some p) (pre ++ suf)).map
              StatisticData.state).take (i + 1)).sum := by
  constructor
  · simp only [finalRunningSum_eq, latestSum, sumStates_append]
    ring
  · intro i h
    have h2 : i < (emitStats (latestSum (some p))
        (groupByKey hour_block_for_hist_state (pre ++ suf))).1.length := h
    have := emitStats_get_sum
      (groupByKey hour_block_for_hist_state (pre ++ suf)) (latestSum (some p)) i h2
    simpa [async_calculate_statistic_data, latestSum] using this

/-- C1 witness: a concrete two-element split. -/
theorem aggregator_split_invariant_witness :
    (([⟨1, 1800000000⟩] ++ [⟨2, 5400000000⟩] : List HistoricalState).Pairwise
        (fun a b => a.dt ≤ b.dt))
    ∧ finalRunningSum (some (finalRunningSum (some 5) [⟨1, 1800000000⟩]))
          [⟨2, 5400000000⟩]
        = finalRunningSum (some 5) ([⟨1, 1800000000⟩] ++ [⟨2, 5400000000⟩]) :=
  ⟨by simp, (aggregator_split_invariant [⟨1, 1800000000⟩] [⟨2, 5400000000⟩] 5 (by simp)).1⟩

/-- C2: the aggregator assigns a historical state whose timestamp has
minute 0 and second 0 to the preceding hour's window and any other state
to the window obtained by truncating its timestamp to the hour; in
particular a sample at 2025-06-01T17:00:00Z (epoch microsecond
1748797200000000) lands in the 16:00 window (1748793600000000). -/
theorem hour_block_assignment (hs : HistoricalState) :
    (dtMinute hs.dt = 0 ∧ dtSecond hs.dt = 0 →
      hour_block_for_hist_state hs = truncToHour hs.dt - usPerHour)
    ∧ (¬(dtMinute hs.dt = 0 ∧ dtSecond hs.dt = 0) →
      hour_block_for_hist_state hs = truncToHour hs.dt)
    ∧ hour_block_for_hist_state ⟨0, 1748797200000000⟩ = 1748793600000000 := by
  refine ⟨?_, ?_, by decide⟩
  · intro h
    rw [hour_block_for_hist_state, if_pos h]
    show truncToHour (hs.dt - usPerHour) = truncToHour hs.dt - usPerHour
    unfold truncToHour usPerHour
    have h2 : hs.dt - 3600000000 = hs.dt + (-1) * 3600000000 := by ring
    have h3 : (hs.dt + (-1) * 3600000000).ediv 3600000000
        = hs.dt.ediv 3600000000 + (-1) :=
      Int.add_mul_ediv_right hs.dt (-1) (show (3600000000 : ℤ) ≠ 0 by norm_num)
    rw [h2, h3]
    ring
  · intro h
    rw [hour_block_for_hist_state, if_neg h]

/-- C2 witness: a state at 02:00:00 exactly. -/
theorem hour_block_assignment_witness :
    hour_block_for_hist_state ⟨0, 7200000000⟩ = truncToHour 7200000000 - usPerHour :=
  (hour_block_assignment ⟨0, 7200000000⟩).1 (by decide)

/-- The schedule never predicts the flat-rate bucket. -/
theorem expectedTariff_ne_flatRate (hour : Int) : expectedTariff hour ≠ .flatRate := by
  unfold expectedTariff
  split
  · exact fun hc => Tariff.noConfusion hc
  · split
    · exact fun hc => Tariff.noConfusion hc
    · exact fun hc => Tariff.noConfusion hc

/-- C3: in unfiltered mode the tariff bucket consulted for a record is
determined solely by the hour of its end-of-interval timestamp —
offPeak for hour 23 or hours 0..7, onPeak for hours 17 and 18, midPeak
otherwise; any emitted datapoint carries exactly that tariff; the result
for a record depends only on its end timestamp and that one bucket, so
data in every other bucket is ignored; and at most one datapoint arises
per record. -/
theorem unfiltered_mode_schedule (dp dpB : RawRecord) (t : Int)
    (ht : dp.endDate = some (some t)) :
    ((hourOfEpoch t = 23 ∨ hourOfEpoch t < 8) →
        expectedTariff (hourOfEpoch t) = .offPeak)
    ∧ ((hourOfEpoch t = 17 ∨ hourOfEpoch t = 18) →
        expectedTariff (hourOfEpoch t) = .onPeak)
    ∧ (¬(hourOfEpoch t = 23 ∨ hourOfEpoch t < 8) →
        ¬(hourOfEpoch t = 17 ∨ hourOfEpoch t = 18) →
        expectedTariff (hourOfEpoch t) = .midPeak)
    ∧ (∀ d, processRecord none dp = some d →
        d.tariff = expectedTariff (hourOfEpoch t))
    ∧ (dpB.endDate = dp.endDate →
        bucketGet dpB (expectedTariff (hourOfEpoch t))
          = bucketGet dp (expectedTariff (hourOfEpoch t)) →
        processRecord none dpB = processRecord none dp)
    ∧ ∀ rs : List RawRecord,
        (rs.filterMap (processRecord none)).length ≤ rs.length := by
  have h24 : hourOfEpoch t < 24 := Int.emod_lt_of_pos _ (by norm_num)
  refine ⟨?_, ?_, ?_, ?_, ?_, ?_⟩
  · intro h
    unfold expectedTariff
    have hc : 23 ≤ hourOfEpoch t ∨ hourOfEpoch t < 8 := by omega
    rw [if_pos hc]
  · intro h
    unfold expectedTariff
    rw [if_neg (by omega : ¬(23 ≤ hourOfEpoch t ∨ hourOfEpoch t < 8)),
      if_pos (by omega : 17 ≤ hourOfEpoch t ∧ hourOfEpoch t < 19)]
  · intro h1 h2
    unfold expectedTariff
    rw [if_neg (by omega : ¬(23 ≤ hourOfEpoch t ∨ hourOfEpoch t < 8)),
      if_neg (by omega : ¬(17 ≤ hourOfEpoch t ∧ hourOfEpoch t < 19))]
  · intro d hd
    simp only [processRecord, ht] at hd
    rcases hb : bucketGet dp (targetTariffFor none (hourOfEpoch t)) with _ | e
    · rw [hb] at hd
      simp at hd
    · rw [hb] at hd
      by_cases hc : (presentNonZero e.consumption || presentNonZero e.cost) = true
      · simp only [hc, if_true] at hd
        obtain rfl : (⟨e.consumption, e.cost, t,
            targetTariffFor none (hourOfEpoch t)⟩ : Datapoint) = d := by
          simpa using hd
        simp [targetTariffFor]
      · simp [hc] at hd
  · intro hB hbuck
    have htar : targetTariffFor none (hourOfEpoch t) = expectedTariff (hourOfEpoch t) := by
      simp [targetTariffFor]
    simp only [processRecord, ht, hB, htar, hbuck]
  · intro rs
    exact List.length_filterMap_le _ _

/-- C3 witness: a record ending at 18:00:00 (hour 18) is on-peak. -/
theorem unfiltered_mode_schedule_witness :
    expectedTariff (hourOfEpoch 64800) = .onPeak :=
  (unfiltered_mode_schedule ⟨some (some 64800), none, none, none, none⟩
    ⟨some (some 64800), none, none, none, none⟩ 64800 rfl).2.1 (Or.inr (by decide))

/-- C4: a datapoint is emitted for a raw record if and only if the bucket
the code consults for it is present and at least one of its consumption
or cost is neither null nor zero; a record whose consulted bucket has
both null-or-zero is never retained. -/
theorem datapoint_retention (tariffType : Option Tariff) (dp : RawRecord) :
    ((processRecord tariffType dp).isSome = true ↔
      ∃ e, chosenBucket tariffType dp = some e ∧
        (presentNonZero e.consumption || presentNonZero e.cost) = true)
    ∧ (∀ e, chosenBucket tariffType dp = some e →
        presentNonZero e.consumption = false → presentNonZero e.cost = false →
        processRecord tariffType dp = none) := by
  rcases he : dp.endDate with _ | mt
  · simp [processRecord, chosenBucket, he]
  · rcases mt with _ | t
    · simp [processRecord, chosenBucket, he]
    · rcases hb : bucketGet dp (targetTariffFor tariffType (hourOfEpoch t)) with _ | e
      · simp [processRecord, chosenBucket, he, hb]
      · by_cases hc : (presentNonZero e.consumption || presentNonZero e.cost) = true
        · constructor
          · simp only [processRecord, chosenBucket, he, hb, hc, if_true]
            constructor
            · intro _
              exact ⟨e, rfl, hc⟩
            · intro _
              simp
          · intro eB heB h1 h2
            simp only [chosenBucket, he, hb] at heB
            obtain rfl : e = eB := by simpa using heB
            simp [h1, h2] at hc
        · constructor
          · simp only [processRecord, chosenBucket, he, hb, hc]
            constructor
            · intro hs
              simp [hc] at hs
            · rintro ⟨e2, he2, hc2⟩
              obtain rfl : e = e2 := by simpa using he2
              exact absurd hc2 hc
          · intro eB heB h1 h2
            simp [processRecord, he, hb, hc]

/-- C4 witness: a record whose consulted (off-peak, hour 0) bucket holds
zero consumption and null cost yields no datapoint. -/
theorem datapoint_retention_witness :
    chosenBucket none ⟨some (some 0), none, some ⟨some 0, none⟩, none, none⟩
        = some ⟨some 0, none⟩
    ∧ processRecord none ⟨some (some 0), none, some ⟨some 0, none⟩, none, none⟩
        = none :=
  ⟨by decide,
    (datapoint_retention none ⟨some (some 0), none, some ⟨some 0, none⟩, none, none⟩).2
      ⟨some 0, none⟩ (by decide) (by decide) (by decide)⟩

/-- C5: `get_data` returns the empty list on every failure: a
network/HTTP error, a non-JSON content type, a JSON parse failure, or a
payload whose isSuccess flag is false. -/
theorem get_data_failure_empty (tariffType : Option Tariff) (ct : String)
    (payload : ApiPayload) :
    get_data .netError tariffType = []
    ∧ (containsJsonContentType ct = false →
        ∀ body, get_data (.ok ct body) tariffType = [])
    ∧ get_data (.ok ct none) tariffType = []
    ∧ (payload.isSuccess = some false →
        get_data (.ok ct (some payload)) tariffType = []) := by
  refine ⟨rfl, ?_, ?_, ?_⟩
  · intro h body
    simp [get_data, h]
  · by_cases h : containsJsonContentType ct = true <;> simp [get_data, h]
  · intro h
    by_cases hj : containsJsonContentType ct = true <;> simp [get_data, hj, h]

/-- C5 witness: a network error and an isSuccess=false payload both give
the empty list. -/
theorem get_data_failure_empty_witness :
    get_data .netError none = []
    ∧ get_data (.ok "application/json" (some ⟨some false, none, none⟩)) none = [] :=
  ⟨(get_data_failure_empty none "text/html" ⟨none, none, none⟩).1,
    (get_data_failure_empty none "application/json" ⟨some false, none, none⟩).2.2.2 rfl⟩

/-- C6: a login response containing the `LoginFormData.UserName` field
name or the "Log in" literal fails as invalid credentials, whatever the
dashboard would have parsed to, so account resolution is never reached;
a response containing neither marker proceeds to account resolution. -/
theorem login_marker_handling (resp : LoginResponse) (target : String) :
    (("LoginFormData.UserName".toList <:+: resp.text.toList ∨
        "Log in".toList <:+: resp.text.toList) →
      ∀ accounts, resolveLogin target ⟨resp.text, accounts⟩ = .invalidCredentials)
    ∧ (loginPageMarkers resp.text = false →
        resolveLogin target resp = accountResolution target resp.accounts
        ∧ resolveLogin target resp ≠ .invalidCredentials) := by
  constructor
  · intro h accounts
    have hm : loginPageMarkers resp.text = true := by
      unfold loginPageMarkers
      rw [Bool.or_eq_true]
      rcases h with h | h
      · exact Or.inl (decide_eq_true h)
      · exact Or.inr (decide_eq_true h)
    simp [resolveLogin, hm]
  · intro h
    have h1 : resolveLogin target resp = accountResolution target resp.accounts := by
      simp [resolveLogin, h]
    refine ⟨h1, ?_⟩
    rw [h1]
    unfold accountResolution
    cases findTargetAccount target resp.accounts <;> simp

/-- C6 witness: a body containing "Log in" fails as invalid
credentials. -/
theorem login_marker_handling_witness :
    resolveLogin "901234" ⟨"Please Log in", []⟩ = .invalidCredentials :=
  (login_marker_handling ⟨"Please Log in", []⟩ "901234").1 (Or.inr (by decide)) []

/-- C7: account resolution selects an entry only when its stripped
account number equals the configured target and it has exactly one
electricity-marker element; an entry with zero or several markers is
skipped as a non-match; and when no entry qualifies the outcome is
account-not-found. -/
theorem account_resolution_selection (target : String) (divs : List AccountDiv) :
    (∀ d, findTargetAccount target divs = some d →
        d.accountNumber.map pyStrip = some target ∧ d.elecIconCount = 1)
    ∧ (∀ d, d.elecIconCount ≠ 1 → accountMatches target d = false)
    ∧ (∀ d rest, accountMatches target d = false →
        findTargetAccount target (d :: rest) = findTargetAccount target rest)
    ∧ ((∀ d ∈ divs, accountMatches target d = false) →
        accountResolution target divs = .accountNotFound) := by
  refine ⟨?_, ?_, ?_, ?_⟩
  · intro d hd
    have hm : accountMatches target d = true := List.find?_some hd
    unfold accountMatches at hm
    rcases hn : d.accountNumber with _ | s
    · rw [hn] at hm
      exact absurd hm (by simp)
    · rw [hn] at hm
      have h2 := Bool.and_eq_true_iff.mp hm
      refine ⟨?_, ?_⟩
      · have h3 : pyStrip s = target := by
          have := h2.1
          simpa using this
        simp [h3]
      · have := h2.2
        simpa using this
  · intro d h
    unfold accountMatches
    rcases d.accountNumber with _ | s
    · rfl
    · simp [h]
  · intro d rest h
    unfold findTargetAccount
    rw [List.find?_cons_of_neg]
    simp [h]
  · intro h
    unfold accountResolution findTargetAccount
    rw [List.find?_eq_none.mpr (fun x hx => by simp [h x hx])]

/-- C7 witness: a dashboard whose only matching-number entry has two
marker elements resolves to account-not-found. -/
theorem account_resolution_selection_witness :
    accountResolution "901" [⟨some "902", 1⟩, ⟨some "901", 2⟩] = .accountNotFound :=
  (account_resolution_selection "901" [⟨some "902", 1⟩, ⟨some "901", 2⟩]).2.2.2
    (by decide)

/-- C8: an update is skipped exactly when a previous update time is
recorded, the initial fetch has completed, and fewer than
`MIN_UPDATE_INTERVAL_HOURS` (6) hours have elapsed; the initial run
(initial fetch not yet done) is never throttled. -/
theorem update_throttle (st : SensorUpdateState) (now t : ℚ) :
    (st.lastUpdateTime = some t → st.initialFetchDone = true →
        (now - t) / 3600 < MIN_UPDATE_INTERVAL_HOURS →
        shouldSkipUpdate st now = true)
    ∧ (st.initialFetchDone = false → shouldSkipUpdate st now = false) := by
  constructor
  · intro h1 h2 h3
    simp [shouldSkipUpdate, h1, h2, h3]
  · intro h
    unfold shouldSkipUpdate
    cases st.lastUpdateTime <;> simp [h]

/-- C8 witness: one hour after a completed initial fetch the update is
skipped. -/
theorem update_throttle_witness :
    shouldSkipUpdate ⟨some 0, true⟩ 3600 = true :=
  (update_throttle ⟨some 0, true⟩ 3600 0).1 rfl rfl
    (by norm_num [MIN_UPDATE_INTERVAL_HOURS])

/-- C9: the schedule-derived tariff is never flatRate, so in unfiltered
mode a record holding data only in its flatRate bucket produces no
datapoint. -/
theorem flatRate_never_in_unfiltered (dp : RawRecord) (t hour : Int) :
    expectedTariff hour ≠ .flatRate
    ∧ (dp.endDate = some (some t) → dp.offPeak = none → dp.midPeak = none →
        dp.onPeak = none → processRecord none dp = none) := by
  refine ⟨expectedTariff_ne_flatRate hour, ?_⟩
  intro he h1 h2 h3
  simp only [processRecord, he]
  have h4 : targetTariffFor none (hourOfEpoch t) = expectedTariff (hourOfEpoch t) := by
    simp [targetTariffFor]
  rcases hc : expectedTariff (hourOfEpoch t) with _ | _ | _ | _
  · exact absurd hc (expectedTariff_ne_flatRate _)
  · simp [h4, hc, bucketGet, h1]
  · simp [h4, hc, bucketGet, h2]
  · simp [h4, hc, bucketGet, h3]

/-- C9 witness: a record with data only in flatRate yields nothing in
unfiltered mode. -/
theorem flatRate_never_in_unfiltered_witness :
    processRecord none ⟨some (some 0), some ⟨some 1, some 1⟩, none, none, none⟩
      = none :=
  (flatRate_never_in_unfiltered
    ⟨some (some 0), some ⟨some 1, some 1⟩, none, none, none⟩ 0 0).2 rfl rfl rfl rfl

/-- C10: a fetched sample whose selected metric value is exactly zero
(or null) is excluded by the truthiness filter from the exposed
historical states; every exposed state came from the input and has a
non-null, non-zero value. -/
theorem zero_state_not_exposed (l : List FetchedState) (s : FetchedState) :
    (s.state = some 0 → s ∉ exposedHistoricalStates l)
    ∧ (s ∈ exposedHistoricalStates l →
        s ∈ l ∧ s.state ≠ none ∧ s.state ≠ some 0) := by
  constructor
  · intro h hmem
    have h2 := (List.mem_filter.mp hmem).2
    rw [h] at h2
    simp [pyTruthy] at h2
  · intro hmem
    have h2 := List.mem_filter.mp hmem
    refine ⟨h2.1, ?_, ?_⟩
    · intro hn
      have h3 := h2.2
      rw [hn] at h3
      simp [pyTruthy] at h3
    · intro hz
      have h3 := h2.2
      rw [hz] at h3
      simp [pyTruthy] at h3

/-- C10 witness: a retained-by-fetcher sample with value 0 is not
exposed. -/
theorem zero_state_not_exposed_witness :
    (⟨some 0, 0⟩ : FetchedState)
      ∉ exposedHistoricalStates [⟨some 0, 0⟩, ⟨some 3, 3600000000⟩] :=
  (zero_state_not_exposed [⟨some 0, 0⟩, ⟨some 3, 3600000000⟩] ⟨some 0, 0⟩).1 rfl

end ElectricIreland
